import Mathlib

/-!
Verification development for the sktime excerpt consisting of
`sktime/classification/feature_based/_summary_classifier.py` and
`sktime/dists_kernels/numba_aligners/_registry.py`, together with the
DTW alignment-engine contract that the registry references.

Conventions of the embedding:
* Python numeric values are modelled with `ℚ` and `Int`; `+infinity` in the
  DTW cost matrix is modelled with `WithTop ℚ`.
* A Python attribute that may be absent, or present holding `None`, is
  modelled with `Option (Option _)` (`none` = absent, `some none` = holds
  `None`).
* A raised Python exception is modelled with an explicit error value; a
  method that mutates `self` before raising returns the partially updated
  state together with the raised error, matching Python semantics where
  attribute assignments performed before an exception persist.

The DTW alignment engine itself is not part of the two source files (the
registry only imports it), so it is modelled from the spec, as are the
`_clone_estimator` utility and the `BaseClassifier` bookkeeping fields.
Everything else is translated from the source files.
-/

/-- Errors of the alignment engine.  Modelled from the spec: the error
taxonomy of the design names `InfeasibleAlignment` for the case where no
path exists between the matrix corners under the window constraint. -/
inductive AlignError where
  | infeasibleAlignment
  deriving DecidableEq, Repr

/-- Modelled from the spec: the optional window (band) constraint of the
alignment engine.  `none` means no constraint; `some k` restricts the
interior cells to those whose index difference is at most `k`. -/
def inBand (w : Option ℕ) (i j : ℕ) : Bool :=
  match w with
  | none => true
  | some k => decide (max i j - min i j ≤ k)

/-- Modelled from the spec: one interior row of the DTW dynamic program.
`c j` is the pointwise cost of matching the current element of `A` against
element `j` of `B`, `band j` tells whether interior cell `j` of this row is
inside the window band, and `prev` is the previous row.  Column `0` of an
interior row is `+infinity`; a cell outside the band is left `+infinity`;
otherwise the cell is the pointwise cost plus the minimum of the "up",
"left" and "diagonal" predecessors (the single recurrence of the design). -/
def dtwNext (c : ℕ → WithTop ℚ) (band : ℕ → Bool) (prev : ℕ → WithTop ℚ) : ℕ → WithTop ℚ
  | 0 => ⊤
  | j + 1 =>
    if band (j + 1) then
      c j + min (prev (j + 1)) (min (dtwNext c band prev j) (prev j))
    else ⊤

/-- Modelled from the spec: row `i` of the `(n+1) × (m+1)` DTW cost matrix
for sequences `A` and `B` under pointwise cost `c` and window `w`.
Row `0` is `0` at column `0` and `+infinity` elsewhere (the documented
boundary policy); row `i+1` is obtained from row `i` by the recurrence. -/
def dtwRow {α : Type} (c : α → α → ℚ) (w : Option ℕ) (A B : List α) (d : α) :
    ℕ → ℕ → WithTop ℚ
  | 0 => fun j => if j = 0 then (0 : WithTop ℚ) else ⊤
  | i + 1 =>
    dtwNext (fun j => ((c (A.getD i d) (B.getD j d) : ℚ) : WithTop ℚ))
      (fun j => inBand w (i + 1) j) (dtwRow c w A B d i)

/-- Modelled from the spec: the full DTW cost matrix, as a function of the
cell coordinates.  Cell `(i, j)` holds the minimum accumulated cost of
matching the first `i` elements of `A` against the first `j` of `B`. -/
def dtwMat {α : Type} [Inhabited α] (c : α → α → ℚ) (w : Option ℕ) (A B : List α)
    (i j : ℕ) : WithTop ℚ :=
  dtwRow c w A B default i j

/-- Modelled from the spec: backtracking from cell `(i, j)` of the cost
matrix to cell `(0, 0)`, recording the warping path in increasing index
order with the fixed tie-break priority: diagonal first, then "up", then
"left".  `fuel` bounds the recursion; every step decreases `i + j`, so any
`fuel ≥ i + j` computes the full path. -/
def backtrackF (mat : ℕ → ℕ → WithTop ℚ) : ℕ → ℕ → ℕ → List (ℕ × ℕ)
  | _, 0, _ => []
  | _, _ + 1, 0 => []
  | 0, _ + 1, _ + 1 => []
  | fuel + 1, i + 1, j + 1 =>
    if mat i j ≤ mat i (j + 1) ∧ mat i j ≤ mat (i + 1) j then
      backtrackF mat fuel i j ++ [(i, j)]
    else if mat i (j + 1) ≤ mat (i + 1) j then
      backtrackF mat fuel i (j + 1) ++ [(i, j)]
    else
      backtrackF mat fuel (i + 1) j ++ [(i, j)]

/-- Modelled from the spec: the alignment engine `align`.  It fills the
cost matrix, fails with `InfeasibleAlignment` when the corner cell is
`+infinity`, and otherwise returns the total cost together with the
warping path obtained by backtracking (the matrix itself is `dtwMat`). -/
def dtwAlign {α : Type} [Inhabited α] (c : α → α → ℚ) (w : Option ℕ) (A B : List α) :
    Except AlignError (ℚ × List (ℕ × ℕ)) :=
  let t := dtwMat c w A B A.length B.length
  if t = ⊤ then Except.error AlignError.infeasibleAlignment
  else Except.ok (WithTop.untop' 0 t,
    backtrackF (dtwMat c w A B) (A.length + B.length) A.length B.length)

/-- The diagonal warping path `(0,0), (1,1), …, (n-1, n-1)`. -/
def diagPath (n : ℕ) : List (ℕ × ℕ) :=
  (List.range n).map fun k => (k, k)

/-- Reference to the alignment engine imported by the registry (the module
`sktime.dists_kernels.numba_aligners.dtw.dtw_cost_matrix` is outside this
excerpt, so the imported names are modelled as atoms). -/
inductive EngineRef where
  | dtwCostMatrix
  deriving DecidableEq, Repr

/-- Reference to the distance factory imported by the registry. -/
inductive FactoryRef where
  | numbaDtwCostMatrix
  deriving DecidableEq, Repr

/-- The imported name `dtw_cost_matrix_alignment` of `_registry.py`. -/
def dtw_cost_matrix_alignment : EngineRef := EngineRef.dtwCostMatrix

/-- The imported name `numba_dtw_cost_matrix_distance_factory` of `_registry.py`. -/
def numba_dtw_cost_matrix_distance_factory : FactoryRef := FactoryRef.numbaDtwCostMatrix

/-- The registry list `NUMBA_ALIGNERS` of `_registry.py` (lines 7-13): a
single three-tuple of name, engine reference and distance-factory
reference. -/
def NUMBA_ALIGNERS : List (String × EngineRef × FactoryRef) :=
  [("dtw cost matrix alignment",
    dtw_cost_matrix_alignment,
    numba_dtw_cost_matrix_distance_factory)]

namespace Sktime

/-- Python exceptions that the embedded classifier code can raise. -/
inductive PyErr where
  | attributeError
  | indexError
  deriving DecidableEq, Repr

/-- The feature-summarisation transformer collaborator, consumed and not
reimplemented by the classifier: `fit_transform(X, y)` and `transform(X)`
produce a feature table of type `F` from raw sequences of type `ρ`. -/
structure Transformer (ρ F L : Type) where
  fit_transform : List ρ → List L → F
  transform : List ρ → F

/-- The generic estimator collaborator: a possibly-absent `n_jobs`
attribute (`none` = absent, `some none` = present holding `None`),
`predict`, an optional callable `predict_proba`, and a record of the
`fit` call it has received (`none` = never fitted). -/
structure Estimator (F L : Type) where
  n_jobs : Option (Option Int)
  predict : F → List L
  predict_proba : Option (F → List (List ℚ))
  fitted : Option (F × List L)

/-- `estimator.fit(X, y)`: records the training call on the estimator. -/
def Estimator.fit {F L : Type} (e : Estimator F L) (X : F) (y : List L) : Estimator F L :=
  { e with fitted := some (X, y) }

/-- `getattr(estimator, "n_jobs", None)`: an absent attribute yields
`None`, a present attribute yields its value. -/
def Estimator.getattr_n_jobs {F L : Type} (e : Estimator F L) : Option Int :=
  e.n_jobs.getD none

/-- Modelled from the spec: `_clone_estimator` from `sktime.base._base`
(not part of this excerpt) produces a fresh, unfitted copy of the given
estimator with the same hyperparameters; the seeding by `random_state`
has no observable effect in this model. -/
def _clone_estimator {F L : Type} (e : Estimator F L) (_random_state : Option Int) :
    Estimator F L :=
  { e with fitted := none }

/-- The attribute state of a `SummaryClassifier` object: the five
constructor-supplied hyperparameters, the two private fields
`_transformer` and `_estimator`, and the bookkeeping fields managed by
the unseen `BaseClassifier` (`_threads_to_use`, `n_classes_`,
`_class_dictionary`). -/
structure ClfState (ρ F L : Type) where
  summary_functions : List String
  summary_quantiles : List ℚ
  estimator : Option (Estimator F L)
  n_jobs : Int
  random_state : Option Int
  _transformer : Option (Transformer ρ F L)
  _estimator : Option (Estimator F L)
  _threads_to_use : Int
  n_classes_ : ℕ
  _class_dictionary : L → ℕ

/-- Modelled from the spec: the base-class bookkeeping values
(`BaseClassifier` is outside this excerpt; the spec treats class-label
bookkeeping and the thread-count hint as consumed capabilities). -/
structure BaseFields (L : Type) where
  threads_to_use : Int
  n_classes : ℕ
  class_dictionary : L → ℕ

/-- `SummaryClassifier.__init__` (lines 67-85): stores the five
parameters unchanged and sets `_transformer` and `_estimator` to `None`;
the base-class fields come from `super().__init__()` and the base `fit`
machinery and are supplied here as `base`. -/
def SummaryClassifier.init {ρ F L : Type} (summary_functions : List String)
    (summary_quantiles : List ℚ) (estimator : Option (Estimator F L)) (n_jobs : Int)
    (random_state : Option Int) (base : BaseFields L) : ClfState ρ F L :=
  { summary_functions := summary_functions
    summary_quantiles := summary_quantiles
    estimator := estimator
    n_jobs := n_jobs
    random_state := random_state
    _transformer := none
    _estimator := none
    _threads_to_use := base.threads_to_use
    n_classes_ := base.n_classes
    _class_dictionary := base.class_dictionary }

/-- `SummaryClassifier._fit` (lines 87-107).  `rf200` models the fresh
`RandomForestClassifier(n_estimators=200)` used when the `estimator`
parameter is `None`.  The method clones the estimator into
`self._estimator`, forwards `self._threads_to_use` to the clone's
`n_jobs` attribute when `getattr(..., "n_jobs", None)` is not `None`
(lines 100-102), and then calls
`self._transformer.fit_transform(X, y)` (line 104).  The construction of
the `SummaryTransformer` (lines 88-91) is commented out in the source,
so when `_transformer` holds `None` this call raises `AttributeError`;
the state updates performed before the raise persist. -/
def SummaryClassifier._fit {ρ F L : Type} (rf200 : Estimator F L) (s : ClfState ρ F L)
    (X : List ρ) (y : List L) : ClfState ρ F L × Option PyErr :=
  let est0 := _clone_estimator (s.estimator.getD rf200) s.random_state
  let est1 := if Estimator.getattr_n_jobs est0 ≠ none
    then { est0 with n_jobs := some (some s._threads_to_use) } else est0
  match s._transformer with
  | none => ({ s with _estimator := some est1 }, some PyErr.attributeError)
  | some t =>
    ({ s with _estimator := some (est1.fit (t.fit_transform X y) y) }, none)

/-- `SummaryClassifier._predict` (lines 109-110): predictions of the
fitted estimator on the transformed features; raises `AttributeError`
when `_estimator` or `_transformer` holds `None`. -/
def SummaryClassifier._predict {ρ F L : Type} (s : ClfState ρ F L) (X : List ρ) :
    Except PyErr (List L) :=
  match s._estimator, s._transformer with
  | some e, some t => Except.ok (e.predict (t.transform X))
  | _, _ => Except.error PyErr.attributeError

/-- The one-hot synthesis loop of `_predict_proba` (lines 117-120):
`dists = np.zeros((n, n_classes))` followed by
`dists[i, class_dictionary[preds[i]]] = 1` for each row `i`; an
out-of-range prediction index or a missing prediction is an
`IndexError`, as in numpy. -/
def distRows {L : Type} (n_classes : ℕ) (dict : L → ℕ) (preds : List L) (n : ℕ) :
    Except PyErr (List (List ℚ)) :=
  (List.range n).mapM fun i =>
    match preds.get? i with
    | none => Except.error PyErr.indexError
    | some p =>
      if dict p < n_classes then
        Except.ok ((List.range n_classes).map fun j => if j = dict p then (1 : ℚ) else 0)
      else Except.error PyErr.indexError

/-- `SummaryClassifier._predict_proba` (lines 112-121): when the
estimator exposes a callable `predict_proba` it is applied to the
transformed features; otherwise a one-hot row per instance is
synthesised from the plain predictions.  `getattr(None, ..., None)`
yields `None` without raising, and any `transform`/`predict` access on a
`None` field raises `AttributeError`. -/
def SummaryClassifier._predict_proba {ρ F L : Type} (s : ClfState ρ F L) (X : List ρ) :
    Except PyErr (List (List ℚ)) :=
  let m : Option (F → List (List ℚ)) :=
    match s._estimator with
    | none => none
    | some e => e.predict_proba
  match m with
  | some f =>
    match s._transformer with
    | none => Except.error PyErr.attributeError
    | some t => Except.ok (f (t.transform X))
  | none =>
    match s._estimator, s._transformer with
    | some e, some t =>
      distRows s.n_classes_ s._class_dictionary (e.predict (t.transform X)) X.length
    | _, _ => Except.error PyErr.attributeError

/-- The classifier states the program can produce: a freshly constructed
object, or the state left behind by a `_fit` call (successful or not) on
a reachable state.  `_predict` and `_predict_proba` do not mutate the
state. -/
inductive Reachable {ρ F L : Type} (rf200 : Estimator F L) : ClfState ρ F L → Prop where
  | init : ∀ sf sq e nj rs base,
      Reachable rf200 (SummaryClassifier.init sf sq e nj rs base)
  | fit : ∀ s X y, Reachable rf200 s →
      Reachable rf200 (SummaryClassifier._fit rf200 s X y).1

/-- A concrete estimator whose `n_jobs` attribute is present and holds 2. -/
def estEx : Estimator ℕ ℕ :=
  { n_jobs := some (some 2)
    predict := fun _ => []
    predict_proba := none
    fitted := none }

/-- A concrete estimator whose `n_jobs` attribute is present but holds `None`. -/
def estNoneJobsEx : Estimator ℕ ℕ :=
  { n_jobs := some none
    predict := fun _ => []
    predict_proba := none
    fitted := none }

/-- A concrete stand-in for the default `RandomForestClassifier(n_estimators=200)`. -/
def rfEx : Estimator ℕ ℕ :=
  { n_jobs := none
    predict := fun _ => []
    predict_proba := none
    fitted := none }

/-- Concrete base-class bookkeeping values. -/
def baseEx : BaseFields ℕ :=
  { threads_to_use := 4
    n_classes := 2
    class_dictionary := fun _ => 0 }

/-- A concrete freshly constructed classifier whose estimator exposes `n_jobs = 2`. -/
def sEx : ClfState ℕ ℕ ℕ :=
  @SummaryClassifier.init ℕ ℕ ℕ [] [] (some estEx) 1 none baseEx

/-- A concrete freshly constructed classifier whose estimator has `n_jobs = None`. -/
def sNoneJobsEx : ClfState ℕ ℕ ℕ :=
  @SummaryClassifier.init ℕ ℕ ℕ [] [] (some estNoneJobsEx) 1 none baseEx

end Sktime

theorem dtwNext_nonneg (c : ℕ → WithTop ℚ) (band : ℕ → Bool) (prev : ℕ → WithTop ℚ)
    (hc : ∀ j, 0 ≤ c j) (hp : ∀ j, 0 ≤ prev j) : ∀ j, 0 ≤ dtwNext c band prev j := by
  intro j
  induction j with
  | zero => exact le_top
  | succ j ih =>
    rw [dtwNext]
    split
    · exact add_nonneg (hc j) (le_min (hp (j + 1)) (le_min ih (hp j)))
    · exact le_top

theorem dtwRow_nonneg {α : Type} (c : α → α → ℚ) (w : Option ℕ) (A B : List α) (d : α)
    (hc : ∀ x y, 0 ≤ c x y) : ∀ i j, 0 ≤ dtwRow c w A B d i j := by
  intro i
  induction i with
  | zero =>
    intro j
    rw [dtwRow]
    dsimp only
    split
    · exact le_refl 0
    · exact le_top
  | succ i ih =>
    intro j
    rw [dtwRow]
    refine dtwNext_nonneg _ _ _ (fun j => ?_) ih j
    exact_mod_cast hc (A.getD i d) (B.getD j d)

theorem dtwRow_diag {α : Type} (c : α → α → ℚ) (A : List α) (d : α)
    (hc : ∀ x y, 0 ≤ c x y) (h0 : ∀ x, c x x = 0) :
    ∀ i, dtwRow c none A A d i i = 0 := by
  intro i
  induction i with
  | zero => rw [dtwRow]; simp
  | succ i ih =>
    rw [dtwRow, dtwNext]
    have hb : inBand none (i + 1) (i + 1) = true := rfl
    rw [if_pos hb, h0]
    rw [show dtwRow c none A A d i i = 0 from ih]
    rw [min_eq_right (dtwNext_nonneg _ _ _ (fun j => by exact_mod_cast hc _ _)
        (dtwRow_nonneg c none A A d hc i) i),
      min_eq_right (dtwRow_nonneg c none A A d hc i (i + 1))]
    simp

theorem backtrackF_diag (mat : ℕ → ℕ → WithTop ℚ)
    (hd : ∀ i, mat i i = 0) (hn : ∀ i j, 0 ≤ mat i j) :
    ∀ i fuel, i ≤ fuel → backtrackF mat fuel i i = diagPath i := by
  intro i
  induction i with
  | zero =>
    intro fuel _
    cases fuel with
    | zero => rfl
    | succ f => rfl
  | succ i ih =>
    intro fuel hf
    cases fuel with
    | zero => exact absurd hf (by omega)
    | succ f =>
      rw [backtrackF, if_pos]
      · rw [ih f (by omega)]
        simp [diagPath, List.range_succ]
      · constructor
        · rw [hd i]; exact hn i (i + 1)
        · rw [hd i]; exact hn (i + 1) i

theorem dtwMat_self_diag {α : Type} [Inhabited α] (c : α → α → ℚ) (A : List α)
    (hc : ∀ x y, 0 ≤ c x y) (h0 : ∀ x, c x x = 0) :
    ∀ i, dtwMat c none A A i i = 0 :=
  fun i => dtwRow_diag c A default hc h0 i

/-- Claim C6, counterexample to the claim as stated: the constant
pointwise cost `1` is finite and non-negative, yet aligning the
single-element sequence `[0]` with an identical copy of itself yields
total cost `1`, not `0` (the diagonal path is still produced). -/
theorem dtwAlign_cex :
    dtwAlign (fun _ _ : ℚ => (1 : ℚ)) none [(0 : ℚ)] [(0 : ℚ)] = Except.ok (1, [(0, 0)]) ∧
    (0 : ℚ) ≤ 1 ∧ (1 : ℚ) ≠ 0 := by
  refine ⟨by with_unfolding_all rfl, by norm_num, by norm_num⟩

/-- Claim C6, amended: for sequences with identical contents, and any
finite non-negative pointwise cost that moreover vanishes on identical
observations (as squared or absolute difference does), the alignment
engine returns total cost `0` and the diagonal warping path
`(0,0), (1,1), …, (n-1, n-1)`. -/
theorem dtwAlign_self_zero_diag {α : Type} [Inhabited α] (c : α → α → ℚ) (A : List α)
    (hc : ∀ x y, 0 ≤ c x y) (h0 : ∀ x, c x x = 0) :
    dtwAlign c none A A = Except.ok (0, diagPath A.length) := by
  have ht : dtwMat c none A A A.length A.length = 0 := dtwMat_self_diag c A hc h0 A.length
  rw [dtwAlign]
  simp only [ht]
  rw [if_neg (by simp)]
  have hb : backtrackF (dtwMat c none A A) (A.length + A.length) A.length A.length
      = diagPath A.length :=
    backtrackF_diag _ (dtwMat_self_diag c A hc h0)
      (fun i j => dtwRow_nonneg c none A A default hc i j) A.length
      (A.length + A.length) (by omega)
  rw [hb]
  norm_num

/-- Witness for the amended claim C6 at the concrete cost function `0`
and the concrete sequence `[3, 1, 4]`. -/
theorem dtwAlign_self_zero_diag_w :
    dtwAlign (fun _ _ : ℚ => (0 : ℚ)) none [(3 : ℚ), 1, 4] [(3 : ℚ), 1, 4]
      = Except.ok (0, diagPath 3) :=
  dtwAlign_self_zero_diag (fun _ _ => 0) [(3 : ℚ), 1, 4] (fun _ _ => le_refl 0) (fun _ => rfl)

theorem dtwNext_mono (c : ℕ → WithTop ℚ) (b1 b2 : ℕ → Bool) (p1 p2 : ℕ → WithTop ℚ)
    (hb : ∀ j, b1 j = true → b2 j = true) (hp : ∀ j, p2 j ≤ p1 j) :
    ∀ j, dtwNext c b2 p2 j ≤ dtwNext c b1 p1 j := by
  intro j
  induction j with
  | zero => exact le_refl ⊤
  | succ j ih =>
    by_cases h1 : b1 (j + 1) = true
    · rw [dtwNext, dtwNext, if_pos h1, if_pos (hb _ h1)]
      exact add_le_add_left (min_le_min (hp (j + 1)) (min_le_min ih (hp j))) _
    · conv_rhs => rw [dtwNext]
      rw [if_neg h1]
      exact le_top

theorem dtwRow_mono {α : Type} (c : α → α → ℚ) (w1 w2 : Option ℕ) (A B : List α) (d : α)
    (hw : ∀ i j, inBand w1 i j = true → inBand w2 i j = true) :
    ∀ i j, dtwRow c w2 A B d i j ≤ dtwRow c w1 A B d i j := by
  intro i
  induction i with
  | zero => intro j; exact le_refl _
  | succ i ih =>
    intro j
    rw [dtwRow, dtwRow]
    exact dtwNext_mono _ _ _ _ _ (fun j => hw (i + 1) j) ih j

theorem inBand_mono_of_le (w1 w2 : ℕ) (h : w1 ≤ w2) :
    ∀ i j, inBand (some w1) i j = true → inBand (some w2) i j = true := by
  intro i j hb
  simp only [inBand, decide_eq_true_eq] at hb ⊢
  omega

theorem inBand_le_none (w : Option ℕ) :
    ∀ i j, inBand w i j = true → inBand none i j = true := by
  intro i j _
  rfl

theorem dtwAlign_ok_mat {α : Type} [Inhabited α] (c : α → α → ℚ) (w : Option ℕ)
    (A B : List α) (q : ℚ) (p : List (ℕ × ℕ))
    (h : dtwAlign c w A B = Except.ok (q, p)) :
    dtwMat c w A B A.length B.length = (q : WithTop ℚ) := by
  rw [dtwAlign] at h
  by_cases ht : dtwMat c w A B A.length B.length = ⊤
  · simp only [ht, if_pos] at h
    exact absurd h (by simp)
  · simp only [if_neg ht] at h
    obtain ⟨q', hq'⟩ := WithTop.ne_top_iff_exists.mp ht
    have : WithTop.untop' 0 (dtwMat c w A B A.length B.length) = q := by
      injection h with h'
      exact congrArg Prod.fst h'
    rw [← hq'] at this ⊢
    rw [WithTop.untop'_coe] at this
    rw [this]

/-- Claim C7: for window widths `w1 < w2`, whenever the three `align`
invocations succeed, the banded total costs satisfy
`cost(w1) ≥ cost(w2) ≥ cost(no window)`: tightening the band never
decreases the returned total cost, and the unbanded cost is a lower
bound. -/
theorem dtwAlign_window_mono {α : Type} [Inhabited α] (c : α → α → ℚ) (A B : List α)
    (w1 w2 : ℕ) (c1 c2 c0 : ℚ) (p1 p2 p0 : List (ℕ × ℕ))
    (hw : w1 < w2)
    (h1 : dtwAlign c (some w1) A B = Except.ok (c1, p1))
    (h2 : dtwAlign c (some w2) A B = Except.ok (c2, p2))
    (h0 : dtwAlign c none A B = Except.ok (c0, p0)) :
    c2 ≤ c1 ∧ c0 ≤ c2 := by
  have m1 := dtwAlign_ok_mat c (some w1) A B c1 p1 h1
  have m2 := dtwAlign_ok_mat c (some w2) A B c2 p2 h2
  have m0 := dtwAlign_ok_mat c none A B c0 p0 h0
  constructor
  · have := dtwRow_mono c (some w1) (some w2) A B default
      (inBand_mono_of_le w1 w2 (le_of_lt hw)) A.length B.length
    rw [show dtwRow c (some w1) A B default A.length B.length
          = dtwMat c (some w1) A B A.length B.length from rfl,
      show dtwRow c (some w2) A B default A.length B.length
          = dtwMat c (some w2) A B A.length B.length from rfl,
      m1, m2] at this
    exact_mod_cast this
  · have := dtwRow_mono c (some w2) none A B default
      (inBand_le_none (some w2)) A.length B.length
    rw [show dtwRow c (some w2) A B default A.length B.length
          = dtwMat c (some w2) A B A.length B.length from rfl,
      show dtwRow c none A B default A.length B.length
          = dtwMat c none A B A.length B.length from rfl,
      m2, m0] at this
    exact_mod_cast this

/-- Witness for claim C7 at the concrete squared-difference cost,
sequences `[0, 2]` and `[1, 2]`, and windows `1 < 2`, where all three
alignments succeed with total cost `1`. -/
theorem dtwAlign_window_mono_w :
    dtwAlign (fun x y : ℚ => (x - y) * (x - y)) (some 1) [(0 : ℚ), 2] [(1 : ℚ), 2]
        = Except.ok (1, [(0, 0), (1, 1)]) ∧
    (1 : ℚ) ≤ 1 ∧ (1 : ℚ) ≤ 1 := by
  refine ⟨by with_unfolding_all rfl, ?_⟩
  exact (dtwAlign_window_mono (fun x y : ℚ => (x - y) * (x - y)) [(0 : ℚ), 2] [(1 : ℚ), 2]
    1 2 1 1 1 [(0, 0), (1, 1)] [(0, 0), (1, 1)] [(0, 0), (1, 1)] (by norm_num)
    (by with_unfolding_all rfl) (by with_unfolding_all rfl) (by with_unfolding_all rfl))

/-- Claim C3: the aligner registry contains the entry named
"dtw cost matrix alignment", a three-tuple with the alignment-engine
reference in the second position and the distance-factory reference in
the third. -/
theorem registry_dtw_entry :
    ("dtw cost matrix alignment", dtw_cost_matrix_alignment,
      numba_dtw_cost_matrix_distance_factory) ∈ NUMBA_ALIGNERS := by
  simp [NUMBA_ALIGNERS]

/-- Claim C5: every entry of the registry is a three-tuple (enforced by
the element type of `NUMBA_ALIGNERS`), and the name strings of distinct
entries are pairwise distinct under case-sensitive comparison. -/
theorem registry_names_unique :
    List.Pairwise (fun a b => a.1 ≠ b.1) NUMBA_ALIGNERS := by
  simp [NUMBA_ALIGNERS]

namespace Sktime

theorem fit_fst_transformer {ρ F L : Type} (rf200 : Estimator F L) (s : ClfState ρ F L)
    (X : List ρ) (y : List L) :
    ((SummaryClassifier._fit rf200 s X y).1)._transformer = s._transformer := by
  rw [SummaryClassifier._fit]
  cases hs : s._transformer <;> simp [hs]

theorem reachable_transformer_none {ρ F L : Type} (rf200 : Estimator F L)
    (s : ClfState ρ F L) (h : Reachable rf200 s) : s._transformer = none := by
  induction h with
  | init sf sq e nj rs base => rfl
  | fit s X y hs ih => rw [fit_fst_transformer]; exact ih

theorem fit_snd_of_none {ρ F L : Type} (rf200 : Estimator F L) (s : ClfState ρ F L)
    (X : List ρ) (y : List L) (h : s._transformer = none) :
    (SummaryClassifier._fit rf200 s X y).2 = some PyErr.attributeError := by
  rw [SummaryClassifier._fit, h]

theorem predict_error_of_none {ρ F L : Type} (s : ClfState ρ F L) (X : List ρ)
    (h : s._transformer = none) :
    SummaryClassifier._predict s X = Except.error PyErr.attributeError := by
  rw [SummaryClassifier._predict, h]
  cases s._estimator <;> rfl

theorem predict_proba_error_of_none {ρ F L : Type} (s : ClfState ρ F L) (X : List ρ)
    (h : s._transformer = none) :
    SummaryClassifier._predict_proba s X = Except.error PyErr.attributeError := by
  rw [SummaryClassifier._predict_proba]
  cases he : s._estimator with
  | none => simp [he, h]
  | some e =>
    cases hp : e.predict_proba with
    | none => simp [he, h, hp]
    | some f => simp [he, h, hp]

/-- Claim C1: the claim does not hold of the code.  Because the
construction of the `SummaryTransformer` (lines 88-91) is commented out,
`_transformer` is still `None` inside `_fit`, so on every freshly
constructed classifier `_fit` raises `AttributeError` instead of piping
`X` through the transformer, and `_predict` on the state `_fit` leaves
behind raises `AttributeError` as well. -/
theorem fit_and_predict_raise {ρ F L : Type} (rf200 : Estimator F L)
    (sf : List String) (sq : List ℚ) (e : Option (Estimator F L)) (nj : Int)
    (rs : Option Int) (base : BaseFields L) (X X' : List ρ) (y : List L) :
    (SummaryClassifier._fit rf200 (SummaryClassifier.init sf sq e nj rs base) X y).2
        = some PyErr.attributeError ∧
    SummaryClassifier._predict
        ((SummaryClassifier._fit rf200 (SummaryClassifier.init sf sq e nj rs base) X y).1) X'
        = Except.error PyErr.attributeError := by
  constructor
  · exact fit_snd_of_none _ _ _ _ rfl
  · exact predict_error_of_none _ _ (by rw [fit_fst_transformer]; rfl)

/-- Claim C2: the claim does not hold of the code.  On every classifier
state the program can produce, `_predict_proba` raises `AttributeError`
(`_transformer` is still `None` when `transform` is invoked on it)
instead of returning a probability matrix. -/
theorem predict_proba_raises {ρ F L : Type} (rf200 : Estimator F L) (s : ClfState ρ F L)
    (X : List ρ) (h : Reachable rf200 s) :
    SummaryClassifier._predict_proba s X = Except.error PyErr.attributeError :=
  predict_proba_error_of_none s X (reachable_transformer_none rf200 s h)

/-- Witness for claim C2's theorem at a concrete freshly constructed
classifier. -/
theorem predict_proba_raises_w :
    SummaryClassifier._predict_proba sEx [5] = Except.error PyErr.attributeError :=
  predict_proba_raises rfEx sEx [5] (Reachable.init [] [] (some estEx) 1 none baseEx)

/-- Claim C8: on every classifier state the program can produce
(`__init__` followed by any number of `_fit` calls), `_transformer`
holds `None`: it is set to `None` in `__init__`, no method assigns it,
and consequently `_fit`, `_predict` and `_predict_proba` all raise
`AttributeError` at the moment they invoke `fit_transform` or
`transform` on it. -/
theorem transformer_always_none {ρ F L : Type} (rf200 : Estimator F L) (s : ClfState ρ F L)
    (h : Reachable rf200 s) :
    s._transformer = none ∧
    (∀ X y, (SummaryClassifier._fit rf200 s X y).2 = some PyErr.attributeError) ∧
    (∀ X, SummaryClassifier._predict s X = Except.error PyErr.attributeError) ∧
    (∀ X, SummaryClassifier._predict_proba s X = Except.error PyErr.attributeError) := by
  have ht := reachable_transformer_none rf200 s h
  exact ⟨ht, fun X y => fit_snd_of_none rf200 s X y ht,
    fun X => predict_error_of_none s X ht,
    fun X => predict_proba_error_of_none s X ht⟩

/-- Witness for claim C8's theorem at a concrete freshly constructed
classifier. -/
theorem transformer_always_none_w :
    sEx._transformer = none ∧
    (SummaryClassifier._fit rfEx sEx [0] [1]).2 = some PyErr.attributeError ∧
    SummaryClassifier._predict sEx [0] = Except.error PyErr.attributeError ∧
    SummaryClassifier._predict_proba sEx [0] = Except.error PyErr.attributeError := by
  have h := transformer_always_none rfEx sEx (Reachable.init [] [] (some estEx) 1 none baseEx)
  exact ⟨h.1, h.2.1 [0] [1], h.2.2.1 [0], h.2.2.2 [0]⟩

/-- Claim C4: during `_fit` on any state the program can produce, when
`getattr` on the cloned estimator's `n_jobs` attribute yields a
non-`None` value, the stored `_estimator` is exactly the clone with its
`n_jobs` set to the classifier's `_threads_to_use` value — no other
estimator field and no other concurrency-related classifier field
(`n_jobs`, `_threads_to_use`) is touched. -/
theorem fit_forwards_n_jobs {ρ F L : Type} (rf200 : Estimator F L) (s : ClfState ρ F L)
    (X : List ρ) (y : List L) (hr : Reachable rf200 s)
    (hm : Estimator.getattr_n_jobs (_clone_estimator (s.estimator.getD rf200) s.random_state)
        ≠ none) :
    ((SummaryClassifier._fit rf200 s X y).1)._estimator =
      some { _clone_estimator (s.estimator.getD rf200) s.random_state with
             n_jobs := some (some s._threads_to_use) } ∧
    ((SummaryClassifier._fit rf200 s X y).1).n_jobs = s.n_jobs ∧
    ((SummaryClassifier._fit rf200 s X y).1)._threads_to_use = s._threads_to_use := by
  have ht := reachable_transformer_none rf200 s hr
  rw [SummaryClassifier._fit]
  rw [ht]
  simp [hm]

/-- Witness for claim C4's theorem at a concrete classifier whose
supplied estimator exposes `n_jobs = 2` and whose `_threads_to_use`
is 4. -/
theorem fit_forwards_n_jobs_w :
    ((SummaryClassifier._fit rfEx sEx [0] [1]).1)._estimator =
      some { _clone_estimator (sEx.estimator.getD rfEx) sEx.random_state with
             n_jobs := some (some 4) } ∧
    ((SummaryClassifier._fit rfEx sEx [0] [1]).1).n_jobs = 1 ∧
    ((SummaryClassifier._fit rfEx sEx [0] [1]).1)._threads_to_use = 4 :=
  fit_forwards_n_jobs rfEx sEx [0] [1]
    (Reachable.init [] [] (some estEx) 1 none baseEx) (by decide)

/-- Claim C10: during `_fit` on any state the program can produce, when
`getattr` on the cloned estimator's `n_jobs` attribute yields `None`
(attribute absent or holding `None`), the stored `_estimator` is the
unmodified clone: its `n_jobs` is left unchanged. -/
theorem fit_leaves_n_jobs {ρ F L : Type} (rf200 : Estimator F L) (s : ClfState ρ F L)
    (X : List ρ) (y : List L) (hr : Reachable rf200 s)
    (hm : Estimator.getattr_n_jobs (_clone_estimator (s.estimator.getD rf200) s.random_state)
        = none) :
    ((SummaryClassifier._fit rf200 s X y).1)._estimator =
      some (_clone_estimator (s.estimator.getD rf200) s.random_state) := by
  have ht := reachable_transformer_none rf200 s hr
  rw [SummaryClassifier._fit]
  rw [ht]
  simp [hm]

/-- Witness for claim C10's theorem at a concrete classifier whose
supplied estimator has an `n_jobs` attribute holding `None`. -/
theorem fit_leaves_n_jobs_w :
    ((SummaryClassifier._fit rfEx sNoneJobsEx [0] [1]).1)._estimator =
      some (_clone_estimator (sNoneJobsEx.estimator.getD rfEx) sNoneJobsEx.random_state) :=
  fit_leaves_n_jobs rfEx sNoneJobsEx [0] [1]
    (Reachable.init [] [] (some estNoneJobsEx) 1 none baseEx) rfl

/-- Claim C9: `_fit` never mutates the five constructor-supplied
hyperparameter fields, and the estimator it stores in the separate field
`_estimator` (and, when the fit call is reached, fits) is — up to its
fit record — exactly the clone of `RandomForestClassifier(n_estimators=200)`
when the `estimator` parameter is `None`, and of the supplied estimator
otherwise, with the `n_jobs` hint applied; in particular the caller's
`estimator` object is never fitted directly. -/
theorem fit_frame {ρ F L : Type} (rf200 : Estimator F L) (s : ClfState ρ F L)
    (X : List ρ) (y : List L) :
    ((SummaryClassifier._fit rf200 s X y).1).summary_functions = s.summary_functions ∧
    ((SummaryClassifier._fit rf200 s X y).1).summary_quantiles = s.summary_quantiles ∧
    ((SummaryClassifier._fit rf200 s X y).1).estimator = s.estimator ∧
    ((SummaryClassifier._fit rf200 s X y).1).n_jobs = s.n_jobs ∧
    ((SummaryClassifier._fit rf200 s X y).1).random_state = s.random_state ∧
    ((SummaryClassifier._fit rf200 s X y).1)._estimator.map (fun e => { e with fitted := none })
      = some (if Estimator.getattr_n_jobs
                  (_clone_estimator (s.estimator.getD rf200) s.random_state) ≠ none
              then { _clone_estimator (s.estimator.getD rf200) s.random_state with
                     n_jobs := some (some s._threads_to_use) }
              else _clone_estimator (s.estimator.getD rf200) s.random_state) := by
  rw [SummaryClassifier._fit]
  cases hs : s._transformer with
  | none =>
    refine ⟨rfl, rfl, rfl, rfl, rfl, ?_⟩
    simp only [Option.map_some]
    split <;> rfl
  | some t =>
    refine ⟨rfl, rfl, rfl, rfl, rfl, ?_⟩
    simp only [Option.map_some, Estimator.fit]
    split <;> rfl

end Sktime
